import Mathlib

/-!
Verification development for the guardian-ai compliance-audit assistant.

The definitions below are a shallow embedding of the repository's Python
sources:

* `Github_scanner/code_tool.py` — the `CodeAuditorAgent` line auditor
  (`_split_into_chunks`, `_analyze_chunk`, `_analyze_file`, `scan_files`,
  `_should_analyze_file`) and the `ComplianceChecker` constructor;
* `langchain_agent.py` (`code_auditor`, hybrid branch) and
  `guardian_agent_simple.py` (`_run_hybrid_audit`) — the two copies of the
  two-pass hybrid-audit control loop;
* `Guardian-Legal-analyzer-main/legal_tool.py` — content-hash-addressed
  ingestion into the persistent vector store.

External collaborators (the chat model, the embedding/vector store, the
filesystem and git clone) are modelled as explicit oracle functions supplied
as parameters: every LLM call site takes the already-parsed shape of the
model's reply, every retrieval call site takes the list of evidence source
paths it would return, and the cloned repository is a partial map from
relative path to file data.  Instrumentation fields (`refineCalled`,
`pass2DiscoveryRan`, ...) record which optional stages of a run executed.
-/

namespace GuardianAI

/-! ## code_tool.py: CodeAuditorAgent constants and file filtering -/

/-- `CodeAuditorAgent.RELEVANT_EXTENSIONS` (code_tool.py line 36). -/
def RELEVANT_EXTENSIONS : List String :=
  [".py", ".js", ".java", ".html", ".css", ".jsx", ".tsx", ".ts",
   ".cpp", ".c", ".h", ".go", ".rb", ".php", ".swift", ".kt"]

/-- `CodeAuditorAgent.IGNORE_EXTENSIONS` (code_tool.py line 39). -/
def IGNORE_EXTENSIONS : List String :=
  [".jpg", ".png", ".gif", ".pdf", ".zip", ".exe", ".dll", ".so", ".dylib",
   ".bin", ".dat", ".db", ".sqlite", ".ico", ".svg", ".woff", ".ttf", ".eot"]

/-- `CodeAuditorAgent.IGNORE_DIRS` (code_tool.py line 42). -/
def IGNORE_DIRS : List String :=
  ["node_modules", "venv", "env", ".git", "__pycache__", "build", "dist",
   ".idea", ".vscode", "target", "bin", "obj"]

/-- `str.lower()` as applied to `Path.suffix` (code_tool.py line 84), defined
structurally over the character list (equivalent to `String.toLower`). -/
def lowerStr (s : String) : String := ⟨s.data.map Char.toLower⟩

/-- `CodeAuditorAgent._should_analyze_file` (code_tool.py lines 68-95).
`parts` are the path components of the candidate file, `suffix` its
extension as returned by `Path.suffix` (leading dot included). -/
def shouldAnalyzeFile (parts : List String) (suffix : String) : Bool :=
  -- any(ignored_dir in parts for ignored_dir in self.IGNORE_DIRS)
  if ∃ d ∈ IGNORE_DIRS, d ∈ parts then false
  else
    -- suffix = file_path.suffix.lower()
    let s := lowerStr suffix
    if s ∈ IGNORE_EXTENSIONS then false
    else if s ∈ RELEVANT_EXTENSIONS then true
    else false

/-! ## code_tool.py: chunk splitting -/

/-- One element of the list built by `_split_into_chunks`
(code_tool.py lines 119-145). -/
structure Chunk where
  content : List String
  file_path : String
  start_line : Nat
  end_line : Nat
  total_lines : Nat
  deriving DecidableEq, Repr

/-- `CodeAuditorAgent._split_into_chunks` (code_tool.py lines 119-145).
`lines` is `content.split('\n')` (content is carried as its line list).
Python's `for i in range(0, len(lines), chunk_size)` enumerates
`i = k * chunk_size` for `k < ceil(len(lines) / chunk_size)`; a step of 0
raises `ValueError` in Python, so `chunk_size = 0` is outside the source's
domain (here it yields no chunks). -/
def splitIntoChunks (chunk_size : Nat) (file_path : String)
    (lines : List String) : List Chunk :=
  (List.range ((lines.length + chunk_size - 1) / chunk_size)).map (fun k =>
    -- the loop variable is i = k * chunk_size
    { content := (lines.drop (k * chunk_size)).take chunk_size  -- lines[i:i+chunk_size]
      file_path := file_path
      start_line := k * chunk_size + 1
      end_line := min (k * chunk_size + chunk_size) lines.length
      total_lines := lines.length })

/-! ## code_tool.py: per-chunk analysis -/

/-- A violation object as the model is asked to emit it: keys
`violating_code`, `explanation`, `rule_violated` (code_tool.py line 171). -/
structure RawViolation where
  violating_code : String
  explanation : String
  rule_violated : String
  deriving DecidableEq, Repr

/-- A violation record after `_analyze_chunk` annotates it (code_tool.py
lines 192-200).  The source also sets legacy duplicate keys `file_path` and
`line_number` to the same two values. -/
structure Violation where
  file : String
  line : Nat
  violating_code : String
  explanation : String
  rule_violated : String
  deriving DecidableEq, Repr

/-- Shape of one chunk's model reply after fence stripping:
`json.loads` either raises (`unparseable`), or returns a JSON value that is
not a list (`nonList`), or returns a list of violation objects. -/
inductive LLMChunkResponse where
  | unparseable
  | nonList
  | parsed (vs : List RawViolation)
  deriving DecidableEq

/-- `CodeAuditorAgent._analyze_chunk` (code_tool.py lines 147-213), with the
model call abstracted into the oracle `o`.  A `JSONDecodeError` (and any
other exception) returns `[]`; a parsed non-list or empty list also returns
`[]` (the `if violations and isinstance(violations, list)` guard); a parsed
non-empty list is annotated with the chunk's file path and starting line. -/
def analyzeChunk (o : Chunk → LLMChunkResponse) (ch : Chunk) : List Violation :=
  match o ch with
  | .unparseable => []
  | .nonList => []
  | .parsed vs =>
      vs.map (fun rv =>
        { file := ch.file_path
          line := ch.start_line
          violating_code := rv.violating_code
          explanation := rv.explanation
          rule_violated := rv.rule_violated })

/-- `CodeAuditorAgent._analyze_file` (code_tool.py lines 215-253): split the
file at `relative_path` into chunks and accumulate each chunk's violations
in order (`self.violations.extend(chunk_violations)`). -/
def analyzeFile (o : Chunk → LLMChunkResponse) (chunk_size : Nat)
    (relative_path : String) (lines : List String) : List Violation :=
  (splitIntoChunks chunk_size relative_path lines).flatMap (analyzeChunk o)

/-! ## code_tool.py: scan_files -/

/-- Data of one existing regular file in the cloned repository, keyed by its
repository-relative path: its path components (`Path.parts`), its extension
(`Path.suffix`), and its content as a line list. -/
structure SrcFile where
  parts : List String
  suffix : String
  lines : List String
  deriving DecidableEq, Repr

/-- Result record of `CodeAuditorAgent.scan_files` (code_tool.py lines
267-316); `total_violations` is always `violations.length` in the source. -/
structure ScanResult where
  total_files : Nat
  analyzed_files : Nat
  violations : List Violation
  deriving DecidableEq, Repr

/-- The condition under which `scan_files` analyzes a candidate path
(code_tool.py line 291): `file_path.is_file() and
self._should_analyze_file(file_path)`.  `fs` is the repository filesystem;
`fs p = none` means `p` is not an existing regular file. -/
def isAnalyzedFile (fs : String → Option SrcFile) (p : String) : Bool :=
  match fs p with
  | none => false
  | some f => shouldAnalyzeFile f.parts f.suffix

/-- `CodeAuditorAgent.scan_files` (code_tool.py lines 255-316).  The early
return for an empty input list produces the same record as the general
loop.  Candidates failing `isAnalyzedFile` are skipped: not counted in
`analyzed_files` and contributing no violations, while `total_files` is the
full input length. -/
def scanFiles (fs : String → Option SrcFile) (o : Chunk → LLMChunkResponse)
    (chunk_size : Nat) (file_paths : List String) : ScanResult :=
  { total_files := file_paths.length
    analyzed_files := (file_paths.filter (isAnalyzedFile fs)).length
    violations := (file_paths.filter (isAnalyzedFile fs)).flatMap (fun p =>
      match fs p with
      | none => []
      | some f => analyzeFile o chunk_size p f.lines) }

/-! ## The hybrid-audit control loop

Two near-identical copies exist in the source: `code_auditor` in
`langchain_agent.py` (lines 127-441, hybrid branch) and
`GuardianAgentSimple._run_hybrid_audit` in `guardian_agent_simple.py`
(lines 410-653).  Both are embedded below over the same oracle environment.
The compliance brief and the prompt strings flow only into the oracles'
inputs and are therefore absorbed into the oracles themselves; the
`CodeAuditorAgent` used for deep scans is constructed with its default
`chunk_size = 30` in both call sites. -/

/-- Oracle environment for one hybrid-audit run.

* `patternResp` — the parsed pattern-generation reply (step 1): a JSON
  object mapping guideline summaries to pattern lists; `none` means the
  reply could not be parsed (or was empty), i.e. the `except` branch runs.
* `refineResp` — the parsed `refined_patterns` list of the refinement
  reply (after the source's coercion of non-string entries to strings);
  `none` means that call failed / was unparseable.
* `discover` — one `check_patterns` retrieval: the evidence source paths
  (repository-relative) the indexed vector store returns for one pattern.
* `chunkResp` — the per-chunk line-auditor model reply.
* `fs` — the cloned repository: relative path to file data; `none` means
  not an existing regular file.
* `allRepoFiles` — `Path(temp_dir).rglob('*')`, the candidate list an
  exhaustive (fallback) audit scans.
* `cloneOk` — whether `_clone_and_index` succeeded. -/
structure HybridEnv where
  patternResp : Option (List (String × List String))
  refineResp : Option (List String)
  discover : String → List String
  chunkResp : Chunk → LLMChunkResponse
  fs : String → Option SrcFile
  allRepoFiles : List String
  cloneOk : Bool

/-- Python set insertion (`initial_relevant_files.add(source)`), modelled as
an insertion-ordered duplicate-free list. -/
def addUnique (acc : List String) (x : String) : List String :=
  if x ∈ acc then acc else acc ++ [x]

/-- Accumulate every evidence source of every returned check into the
candidate set (the nested `for check ... for source ...` loops). -/
def addSources (acc : List String) (sources : List String) : List String :=
  sources.foldl addUnique acc

/-- Run `checker.check_patterns(patterns)` and collect the evidence sources
of each pattern's retrieval into the accumulated candidate set. -/
def discoverAll (env : HybridEnv) (patterns : List String)
    (acc : List String) : List String :=
  patterns.foldl (fun a p => addSources a (env.discover p)) acc

/-- Pass-1 discovery: `for guideline, patterns in guideline_patterns.items():
checker.check_patterns(patterns)`, accumulating `initial_relevant_files`. -/
def pass1Discover (env : HybridEnv)
    (gps : List (String × List String)) : List String :=
  gps.foldl (fun a gp => discoverAll env gp.2 a) []

/-- A deep scan via `auditor.scan_files` inside the hybrid flow
(`CodeAuditorAgent` default `chunk_size = 30`). -/
def runScan (env : HybridEnv) (files : List String) : ScanResult :=
  scanFiles env.fs env.chunkResp 30 files

/-- The pass-1 deep scan: `files_to_scan_abs = [f for f in
initial_relevant_files if exists]`, `initial_audit_result = {"violations":
[]}`, `if files_to_scan_abs: ... = auditor.scan_files(...)`; the result's
violation list. -/
def pass1ScanViolations (env : HybridEnv)
    (initialFiles : List String) : List Violation :=
  let files1 := initialFiles.filter (fun f => (env.fs f).isSome)
  if files1.isEmpty then [] else (runScan env files1).violations

/-- Pass-2 discovery on the refined patterns:
`checker.check_patterns(refined_patterns)` collecting `second_pass_files`. -/
def pass2Discovery (env : HybridEnv) (rp : List String) : List String :=
  discoverAll env rp []

/-- `newly_discovered_files = second_pass_files - initial_relevant_files`:
the strict set difference filtering out pass-1 candidates. -/
def newlyDiscovered (env : HybridEnv) (I : List String)
    (rp : List String) : List String :=
  (pass2Discovery env rp).filter (fun f => decide (f ∉ I))

/-- `files_to_scan_abs_pass2`: the newly discovered files that exist in the
clone. -/
def pass2ScanFiles (env : HybridEnv) (I : List String)
    (rp : List String) : List String :=
  (newlyDiscovered env I rp).filter (fun f => (env.fs f).isSome)

/-! ### langchain_agent.py: code_auditor (hybrid branch) -/

/-- `_last_audit_results['stats']` as stored by the langchain hybrid branch
(langchain_agent.py lines 380-386). -/
structure LCStats where
  total_violations : Nat
  pass1_files : Nat
  pass1_violations : Nat
  pass2_files : Nat
  pass2_violations : Nat
  deriving DecidableEq, Repr

/-- Terminal shape of one `code_auditor` hybrid run: either the hybrid
aggregation, or — when pattern generation failed and `mode` was reset to
`"audit"` — the exhaustive full-repository scan result. -/
inductive LCOutcome where
  | hybrid (violations : List Violation) (stats : LCStats)
  | fullAudit (scan : ScanResult)
  deriving DecidableEq

/-- Run log of one `code_auditor` hybrid run: the outcome plus
instrumentation recording what the run computed and which optional stages
executed. -/
structure LCLog where
  outcome : LCOutcome
  pass1Candidates : List String
  pass1Violations : List Violation
  refineCalled : Bool
  pass2DiscoveryRan : Bool
  pass2Discovered : List String
  pass2NewFiles : List String
  pass2ScanRan : Bool
  pass2Scanned : List String
  pass2Violations : List Violation
  deriving DecidableEq

/-- Step 7 of `code_auditor` (langchain_agent.py lines 371-403):
`all_violations = initial_violations.copy()` (an explicit copy),
`pass1_violation_count = len(initial_violations)` stored before pass 2,
`all_violations.extend(second_violations)`, and
`pass2_violation_count = len(all_violations) - pass1_violation_count`. -/
def lcAggregate (initialFiles : List String) (p1 p2 : List Violation)
    (newly : List String) (refineCalled p2dr p2sr : Bool)
    (p2disc p2scanned : List String) : LCLog :=
  let all := p1 ++ p2
  { outcome := .hybrid all
      { total_violations := all.length
        pass1_files := initialFiles.length
        pass1_violations := p1.length
        pass2_files := newly.length
        pass2_violations := all.length - p1.length }
    pass1Candidates := initialFiles
    pass1Violations := p1
    refineCalled := refineCalled
    pass2DiscoveryRan := p2dr
    pass2Discovered := p2disc
    pass2NewFiles := newly
    pass2ScanRan := p2sr
    pass2Scanned := p2scanned
    pass2Violations := p2 }

/-- Steps 4-7 of `code_auditor` (langchain_agent.py lines 311-403): the
refinement stage guarded by `if initial_violations:`, pass-2 discovery on
the refined patterns, `newly_discovered_files = second_pass_files -
initial_relevant_files`, the pass-2 deep scan on those of the new files
that exist, and the aggregation. -/
def lcRefineStage (env : HybridEnv) (initialFiles : List String)
    (p1 : List Violation) : LCLog :=
  if p1.isEmpty then
    lcAggregate initialFiles p1 [] [] false false false [] []
  else
    match env.refineResp with
    | none => lcAggregate initialFiles p1 [] [] true false false [] []
    | some rp =>
      if rp.isEmpty then
        lcAggregate initialFiles p1 [] [] true false false [] []
      else if (newlyDiscovered env initialFiles rp).isEmpty then
        lcAggregate initialFiles p1 [] (newlyDiscovered env initialFiles rp)
          true true false (pass2Discovery env rp) []
      else if (pass2ScanFiles env initialFiles rp).isEmpty then
        lcAggregate initialFiles p1 [] (newlyDiscovered env initialFiles rp)
          true true false (pass2Discovery env rp) []
      else
        lcAggregate initialFiles p1
          (runScan env (pass2ScanFiles env initialFiles rp)).violations
          (newlyDiscovered env initialFiles rp) true true true
          (pass2Discovery env rp) (pass2ScanFiles env initialFiles rp)

/-- `code_auditor`'s hybrid branch (langchain_agent.py lines 141-403).
Pattern-generation failure resets `mode` to `"audit"`, so control falls
through to the exhaustive `scan_repository` fallback at the bottom of the
function.  A clone/index failure raises inside the pass-1 `try`, is caught
by its `except`, and the run continues with an empty candidate set and no
pass-1 violations. -/
def lcHybridRun (env : HybridEnv) : LCLog :=
  match env.patternResp with
  | none =>
    { outcome := .fullAudit (runScan env env.allRepoFiles)
      pass1Candidates := [], pass1Violations := []
      refineCalled := false, pass2DiscoveryRan := false, pass2Discovered := []
      pass2NewFiles := [], pass2ScanRan := false, pass2Scanned := []
      pass2Violations := [] }
  | some gps =>
    if env.cloneOk then
      let initialFiles := pass1Discover env gps
      lcRefineStage env initialFiles (pass1ScanViolations env initialFiles)
    else
      lcRefineStage env [] []

/-! ### guardian_agent_simple.py: _run_hybrid_audit -/

/-- `scan_statistics` of the `_run_hybrid_audit` result
(guardian_agent_simple.py lines 645-650). -/
structure GSStats where
  pass1_files : Nat
  pass1_violations : Nat
  pass2_new_files : Nat
  pass2_violations : Nat
  deriving DecidableEq, Repr

/-- Terminal shape of one `_run_hybrid_audit` run: the aggregated result,
the early "no files matching the initial code patterns" return, or the
fallback to `_run_code_auditor(mode="audit")` (pattern-generation or
clone failure). -/
inductive GSOutcome where
  | aggregated (total_violations : Nat) (violations : List Violation)
      (stats : GSStats)
  | noFilesFound
  | fallbackAudit (scan : ScanResult)
  deriving DecidableEq

/-- Run log of one `_run_hybrid_audit` run. -/
structure GSLog where
  outcome : GSOutcome
  pass1Candidates : List String
  pass1Violations : List Violation
  refineCalled : Bool
  pass2DiscoveryRan : Bool
  pass2Discovered : List String
  pass2NewFiles : List String
  pass2ScanRan : Bool
  pass2Scanned : List String
  pass2Violations : List Violation
  deriving DecidableEq

/-- Step 7 of `_run_hybrid_audit` (guardian_agent_simple.py lines 618-653).
The source writes `all_violations = initial_violations` WITHOUT a copy, so
both names alias one list; the later
`all_violations.extend(second_violations)` (line 621) mutates that shared
list.  Consequently, at aggregation time `len(initial_violations)` is the
length of the extended list (pass-1 plus pass-2 violations), and
`len(all_violations) - len(initial_violations)` is `0`.  When no pass-2
scan ran, `p2 = []` and the same expressions are the true pass-1 count and
`0`.  Both counters are therefore uniformly `all.length` and
`all.length - all.length` below — a faithful rendering of the aliasing. -/
def gsAggregate (initialFiles : List String) (p1 p2 : List Violation)
    (newly : List String) (refineCalled p2dr p2sr : Bool)
    (p2disc p2scanned : List String) : GSLog :=
  let all := p1 ++ p2
  { outcome := .aggregated all.length all
      { pass1_files := initialFiles.length
        pass1_violations := all.length         -- len(initial_violations), aliased
        pass2_new_files := newly.length
        pass2_violations := all.length - all.length }  -- len(all) - len(initial)
    pass1Candidates := initialFiles
    pass1Violations := p1
    refineCalled := refineCalled
    pass2DiscoveryRan := p2dr
    pass2Discovered := p2disc
    pass2NewFiles := newly
    pass2ScanRan := p2sr
    pass2Scanned := p2scanned
    pass2Violations := p2 }

/-- Steps 4-7 of `_run_hybrid_audit` (guardian_agent_simple.py lines
556-653): refinement and pass-2 discovery inside one `try` guarded by
`if initial_violations:`, then the pass-2 deep scan guarded by
`if newly_discovered_files:`, then aggregation. -/
def gsRefineStage (env : HybridEnv) (initialFiles : List String)
    (p1 : List Violation) : GSLog :=
  if p1.isEmpty then
    gsAggregate initialFiles p1 [] [] false false false [] []
  else
    match env.refineResp with
    | none => gsAggregate initialFiles p1 [] [] true false false [] []
    | some rp =>
      if rp.isEmpty then
        gsAggregate initialFiles p1 [] [] true false false [] []
      else if (newlyDiscovered env initialFiles rp).isEmpty then
        gsAggregate initialFiles p1 [] (newlyDiscovered env initialFiles rp)
          true true false (pass2Discovery env rp) []
      else if (pass2ScanFiles env initialFiles rp).isEmpty then
        gsAggregate initialFiles p1 [] (newlyDiscovered env initialFiles rp)
          true true false (pass2Discovery env rp) []
      else
        gsAggregate initialFiles p1
          (runScan env (pass2ScanFiles env initialFiles rp)).violations
          (newlyDiscovered env initialFiles rp) true true true
          (pass2Discovery env rp) (pass2ScanFiles env initialFiles rp)

/-- The early return of `_run_hybrid_audit` when pass-1 discovery finds no
files (guardian_agent_simple.py lines 522-527). -/
def gsNoFilesLog : GSLog :=
  { outcome := .noFilesFound
    pass1Candidates := [], pass1Violations := []
    refineCalled := false, pass2DiscoveryRan := false, pass2Discovered := []
    pass2NewFiles := [], pass2ScanRan := false, pass2Scanned := []
    pass2Violations := [] }

/-- The fallback `return self._run_code_auditor(repo_url, brief,
mode="audit")`: `CodeAuditorAgent.scan_repository`, an exhaustive scan over
every file of the clone. -/
def gsFallbackLog (env : HybridEnv) : GSLog :=
  { outcome := .fallbackAudit (runScan env env.allRepoFiles)
    pass1Candidates := [], pass1Violations := []
    refineCalled := false, pass2DiscoveryRan := false, pass2Discovered := []
    pass2NewFiles := [], pass2ScanRan := false, pass2Scanned := []
    pass2Violations := [] }

/-- `GuardianAgentSimple._run_hybrid_audit` (guardian_agent_simple.py lines
410-653).  Pattern-generation failure and clone failure both return the
full exhaustive audit; an empty pass-1 candidate set returns the explicit
"no findings" result before any deep scan. -/
def gsHybridRun (env : HybridEnv) : GSLog :=
  match env.patternResp with
  | none => gsFallbackLog env
  | some gps =>
    if env.cloneOk then
      let initialFiles := pass1Discover env gps
      if initialFiles.isEmpty then gsNoFilesLog
      else gsRefineStage env initialFiles (pass1ScanViolations env initialFiles)
    else gsFallbackLog env

/-! ## legal_tool.py: content-hash-addressed ingestion -/

/-- The chunks-already-present filter of `legal_analyst_tool`
(legal_tool.py lines 128-147).  The store is the Chroma collection as a
list of `(id, chunk text)` pairs; `h` is the chunk-id function
`sha256(page_content)[:16]`, an arbitrary deterministic function of the
chunk text.  `existing_ids` is `collection.get(ids=chunk_ids)`, i.e. the
requested ids that are present, so a chunk survives the filter exactly when
its id is absent from the store. -/
def ingestNewPairs (h : String → String) (store : List (String × String))
    (chunks : List String) : List (String × String) :=
  (chunks.map (fun c => (h c, c))).filter
    (fun p => decide (p.1 ∉ store.map Prod.fst))

/-- The add-to-existing-database branch (legal_tool.py lines 121-156):
`vectorstore.add_documents(documents=new_chunks, ids=new_chunk_ids)` after
filtering out already-present ids. -/
def ingestExisting (h : String → String) (store : List (String × String))
    (chunks : List String) : List (String × String) :=
  store ++ ingestNewPairs h store chunks

/-- The create-new-database branch (legal_tool.py lines 157-166):
`Chroma.from_documents(documents=chunks, ids=chunk_ids)`. -/
def ingestFresh (h : String → String)
    (chunks : List String) : List (String × String) :=
  chunks.map (fun c => (h c, c))

/-! ## code_tool.py: fail-fast constructors -/

/-- Python truthiness of `os.environ.get(key)`: `None` and the empty string
are both falsy. -/
def envTruthy : Option String → Bool
  | none => false
  | some s => if s = "" then false else true

/-- External client constructions a constructor may perform after its
credential check. -/
inductive InitStep where
  | llmClientInit
  | embeddingsInit
  deriving DecidableEq, Repr

/-- Outcome of running a constructor: `raised` is the `ValueError` message
when one is raised, and `steps` lists the external constructions performed
before returning (in order). -/
structure InitResult where
  raised : Option String
  steps : List InitStep
  deriving DecidableEq, Repr

/-- `CodeAuditorAgent.__init__` (code_tool.py lines 44-66): the very first
statement checks `os.environ.get("GOOGLE_API_KEY")` and raises before the
`ChatGoogleGenerativeAI` client is built; no clone, indexing or model call
happens in the constructor. -/
def codeAuditorAgentInit (env : String → Option String) : InitResult :=
  if envTruthy (env "GOOGLE_API_KEY") then
    { raised := none, steps := [.llmClientInit] }
  else
    { raised := some
        "GOOGLE_API_KEY not found. Please set it as an environment variable."
      steps := [] }

/-- `ComplianceChecker.__init__` (code_tool.py lines 403-432): same check
first, then the embeddings client and the chat client are built. -/
def complianceCheckerInit (env : String → Option String) : InitResult :=
  if envTruthy (env "GOOGLE_API_KEY") then
    { raised := none, steps := [.embeddingsInit, .llmClientInit] }
  else
    { raised := some
        "GOOGLE_API_KEY not found. Please set it as an environment variable."
      steps := [] }

/-! ## Concrete demonstration inputs -/

/-- A one-line Python file `a.py` in the demonstration repository. -/
def demoFileA : SrcFile :=
  { parts := ["a.py"], suffix := ".py", lines := ["secret = 1"] }

/-- A one-line Python file `b.py` in the demonstration repository. -/
def demoFileB : SrcFile :=
  { parts := ["b.py"], suffix := ".py", lines := ["secret = 2"] }

/-- The violation the line auditor produces for `a.py` in the
demonstration run. -/
def vA : Violation :=
  { file := "a.py", line := 1, violating_code := "secret = 1"
    explanation := "hardcoded", rule_violated := "R1" }

/-- The violation the line auditor produces for `b.py` in the
demonstration run. -/
def vB : Violation :=
  { file := "b.py", line := 1, violating_code := "secret = 2"
    explanation := "hardcoded", rule_violated := "R1" }

/-- A demonstration hybrid-audit run: pass-1 discovery finds `a.py` whose
scan yields one violation; refinement succeeds and pass-2 discovery finds
`b.py`, whose scan yields one more violation. -/
def demoEnv : HybridEnv :=
  { patternResp := some [("Hardcoded secrets", ["hardcoded secret"])]
    refineResp := some ["refined secret pattern"]
    discover := fun p =>
      if p = "hardcoded secret" then ["a.py"]
      else if p = "refined secret pattern" then ["b.py"]
      else []
    chunkResp := fun ch =>
      if ch.file_path = "a.py" then
        .parsed [{ violating_code := "secret = 1", explanation := "hardcoded"
                   rule_violated := "R1" }]
      else if ch.file_path = "b.py" then
        .parsed [{ violating_code := "secret = 2", explanation := "hardcoded"
                   rule_violated := "R1" }]
      else .unparseable
    fs := fun p =>
      if p = "a.py" then some demoFileA
      else if p = "b.py" then some demoFileB
      else none
    allRepoFiles := ["a.py", "b.py"]
    cloneOk := true }

/-- The demonstration run with a clean repository: every chunk's model
reply parses as the empty violation list. -/
def demoCleanEnv : HybridEnv :=
  { demoEnv with chunkResp := fun _ => .parsed [] }

/-- The demonstration run in which the pattern-generation reply cannot be
parsed as JSON. -/
def demoNoPatternEnv : HybridEnv :=
  { demoEnv with patternResp := none }

/-! ## General lemmas about the refinement stage -/

/-- Case eliminator for `lcRefineStage`: every run of the refinement stage
produces one of four aggregation shapes (short-circuit, refinement failed or
empty, discovery without a pass-2 scan, full pass 2). -/
theorem lcRefineStage_cases (env : HybridEnv) (I : List String)
    (p1 : List Violation) (motive : LCLog → Prop)
    (h1 : motive (lcAggregate I p1 [] [] false false false [] []))
    (h2 : motive (lcAggregate I p1 [] [] true false false [] []))
    (h3 : ∀ rp, motive (lcAggregate I p1 [] (newlyDiscovered env I rp)
        true true false (pass2Discovery env rp) []))
    (h4 : ∀ rp, motive (lcAggregate I p1
        (runScan env (pass2ScanFiles env I rp)).violations
        (newlyDiscovered env I rp) true true true
        (pass2Discovery env rp) (pass2ScanFiles env I rp))) :
    motive (lcRefineStage env I p1) := by
  unfold lcRefineStage
  split
  · exact h1
  · split
    · exact h2
    · split
      · exact h2
      · split
        · exact h3 _
        · split
          · exact h3 _
          · exact h4 _

/-- Case eliminator for `gsRefineStage`. -/
theorem gsRefineStage_cases (env : HybridEnv) (I : List String)
    (p1 : List Violation) (motive : GSLog → Prop)
    (h1 : motive (gsAggregate I p1 [] [] false false false [] []))
    (h2 : motive (gsAggregate I p1 [] [] true false false [] []))
    (h3 : ∀ rp, motive (gsAggregate I p1 [] (newlyDiscovered env I rp)
        true true false (pass2Discovery env rp) []))
    (h4 : ∀ rp, motive (gsAggregate I p1
        (runScan env (pass2ScanFiles env I rp)).violations
        (newlyDiscovered env I rp) true true true
        (pass2Discovery env rp) (pass2ScanFiles env I rp))) :
    motive (gsRefineStage env I p1) := by
  unfold gsRefineStage
  split
  · exact h1
  · split
    · exact h2
    · split
      · exact h2
      · split
        · exact h3 _
        · split
          · exact h3 _
          · exact h4 _

/-- Membership in the strict set difference excludes pass-1 candidates. -/
theorem mem_newlyDiscovered (env : HybridEnv) (I : List String)
    (rp : List String) (f : String) (hf : f ∈ newlyDiscovered env I rp) :
    f ∉ I := by
  simp only [newlyDiscovered, List.mem_filter, decide_eq_true_eq] at hf
  exact hf.2

/-- Every file handed to the pass-2 deep scan is outside the pass-1
candidate set. -/
theorem mem_pass2ScanFiles (env : HybridEnv) (I : List String)
    (rp : List String) (f : String) (hf : f ∈ pass2ScanFiles env I rp) :
    f ∉ I := by
  simp only [pass2ScanFiles, List.mem_filter] at hf
  exact mem_newlyDiscovered env I rp f hf.1

/-- Unfolding `lcHybridRun` on the main path. -/
theorem lcHybridRun_eq (env : HybridEnv) (gps : List (String × List String))
    (hp : env.patternResp = some gps) (hc : env.cloneOk = true) :
    lcHybridRun env = lcRefineStage env (pass1Discover env gps)
      (pass1ScanViolations env (pass1Discover env gps)) := by
  unfold lcHybridRun
  rw [hp]
  simp [hc]

/-- Unfolding `gsHybridRun` on the main path. -/
theorem gsHybridRun_eq (env : HybridEnv) (gps : List (String × List String))
    (hp : env.patternResp = some gps) (hc : env.cloneOk = true)
    (hne : (pass1Discover env gps).isEmpty = false) :
    gsHybridRun env = gsRefineStage env (pass1Discover env gps)
      (pass1ScanViolations env (pass1Discover env gps)) := by
  unfold gsHybridRun
  rw [hp]
  simp [hc, hne]

/-- Pass-2 exclusivity of one `code_auditor` run. -/
theorem lc_exclusive (env : HybridEnv) :
    (∀ f ∈ (lcHybridRun env).pass2Scanned,
        f ∉ (lcHybridRun env).pass1Candidates)
    ∧ (lcHybridRun env).pass2NewFiles
        = (lcHybridRun env).pass2Discovered.filter
            (fun f => decide (f ∉ (lcHybridRun env).pass1Candidates)) := by
  rcases hp : env.patternResp with _ | gps
  · simp [lcHybridRun, hp]
  · have key : ∀ I p1,
        (∀ f ∈ (lcRefineStage env I p1).pass2Scanned,
            f ∉ (lcRefineStage env I p1).pass1Candidates)
        ∧ (lcRefineStage env I p1).pass2NewFiles
            = (lcRefineStage env I p1).pass2Discovered.filter
                (fun f =>
                  decide (f ∉ (lcRefineStage env I p1).pass1Candidates)) := by
      intro I p1
      refine lcRefineStage_cases env I p1 (fun log =>
        (∀ f ∈ log.pass2Scanned, f ∉ log.pass1Candidates)
        ∧ log.pass2NewFiles = log.pass2Discovered.filter
            (fun f => decide (f ∉ log.pass1Candidates))) ?_ ?_ ?_ ?_
      · simp [lcAggregate]
      · simp [lcAggregate]
      · intro rp
        simp only [lcAggregate]
        exact ⟨by simp, rfl⟩
      · intro rp
        simp only [lcAggregate]
        exact ⟨fun f hf => mem_pass2ScanFiles env I rp f hf, rfl⟩
    by_cases hc : env.cloneOk
    · rw [lcHybridRun_eq env gps hp hc]
      exact key _ _
    · have hc' : env.cloneOk = false := by simp [hc]
      have hrun : lcHybridRun env = lcRefineStage env [] [] := by
        unfold lcHybridRun
        rw [hp]
        simp [hc']
      rw [hrun]
      exact key _ _

/-- Pass-2 exclusivity of one `_run_hybrid_audit` run. -/
theorem gs_exclusive (env : HybridEnv) :
    (∀ f ∈ (gsHybridRun env).pass2Scanned,
        f ∉ (gsHybridRun env).pass1Candidates)
    ∧ (gsHybridRun env).pass2NewFiles
        = (gsHybridRun env).pass2Discovered.filter
            (fun f => decide (f ∉ (gsHybridRun env).pass1Candidates)) := by
  rcases hp : env.patternResp with _ | gps
  · simp [gsHybridRun, hp, gsFallbackLog]
  · have key : ∀ I p1,
        (∀ f ∈ (gsRefineStage env I p1).pass2Scanned,
            f ∉ (gsRefineStage env I p1).pass1Candidates)
        ∧ (gsRefineStage env I p1).pass2NewFiles
            = (gsRefineStage env I p1).pass2Discovered.filter
                (fun f =>
                  decide (f ∉ (gsRefineStage env I p1).pass1Candidates)) := by
      intro I p1
      refine gsRefineStage_cases env I p1 (fun log =>
        (∀ f ∈ log.pass2Scanned, f ∉ log.pass1Candidates)
        ∧ log.pass2NewFiles = log.pass2Discovered.filter
            (fun f => decide (f ∉ log.pass1Candidates))) ?_ ?_ ?_ ?_
      · simp [gsAggregate]
      · simp [gsAggregate]
      · intro rp
        simp only [gsAggregate]
        exact ⟨by simp, rfl⟩
      · intro rp
        simp only [gsAggregate]
        exact ⟨fun f hf => mem_pass2ScanFiles env I rp f hf, rfl⟩
    by_cases hc : env.cloneOk
    · by_cases hne : (pass1Discover env gps).isEmpty
      · have hrun : gsHybridRun env = gsNoFilesLog := by
          unfold gsHybridRun
          rw [hp]
          simp [hc, hne]
        rw [hrun]
        simp [gsNoFilesLog]
      · rw [gsHybridRun_eq env gps hp hc (by simp [hne])]
        exact key _ _
    · have hc' : env.cloneOk = false := by simp [hc]
      have hrun : gsHybridRun env = gsFallbackLog env := by
        unfold gsHybridRun
        rw [hp]
        simp [hc']
      rw [hrun]
      simp [gsFallbackLog]

/-- `lcRefineStage` with no pass-1 violations short-circuits. -/
theorem lcRefineStage_nil (env : HybridEnv) (I : List String) :
    lcRefineStage env I []
      = lcAggregate I [] [] [] false false false [] [] := rfl

/-- `gsRefineStage` with no pass-1 violations short-circuits. -/
theorem gsRefineStage_nil (env : HybridEnv) (I : List String) :
    gsRefineStage env I []
      = gsAggregate I [] [] [] false false false [] [] := rfl

/-- Congruence for `flatMap` under pointwise agreement on members. -/
theorem flatMap_congr_mem {α β : Type} (l : List α) (f g : α → List β)
    (H : ∀ a ∈ l, f a = g a) : l.flatMap f = l.flatMap g := by
  induction l with
  | nil => rfl
  | cons x xs ih =>
    simp only [List.flatMap_cons]
    rw [H x (by simp), ih (fun a ha => H a (by simp [ha]))]

/-- The whitelist and the binary-extension blacklist are disjoint. -/
theorem ignored_not_relevant :
    ∀ s ∈ IGNORE_EXTENSIONS, s ∉ RELEVANT_EXTENSIONS := by
  intro s hs
  fin_cases hs <;> decide

/-! ## Claim theorems -/

/-- Claim C1 (code bug evidence).  The claim states that for every
hybrid-audit run the final violations list is the concatenation of the
pass-1 and pass-2 lists (it is, in both implementations), `total_violations`
is its length (it is), and the per-pass counters are correct.  The
counters are correct in `langchain_agent.py`'s `code_auditor` (which copies
the pass-1 list before extending), but wrong in
`guardian_agent_simple.py`'s `_run_hybrid_audit`: there
`all_violations = initial_violations` aliases the pass-1 list, so after
`all_violations.extend(second_violations)` the aggregation reports
`pass1_violations = 2` and `pass2_violations = 0` on the demonstration run
in which the pass-1 scan produced exactly one violation (`vA`) and the
pass-2 scan exactly one more (`vB`). -/
theorem gs_aggregator_counters_diverge :
    (gsHybridRun demoEnv).pass1Violations = [vA]
    ∧ (gsHybridRun demoEnv).pass2Violations = [vB]
    ∧ (gsHybridRun demoEnv).outcome = .aggregated 2 [vA, vB]
        { pass1_files := 1, pass1_violations := 2, pass2_new_files := 1
          pass2_violations := 0 }
    ∧ (lcHybridRun demoEnv).outcome = .hybrid [vA, vB]
        { total_violations := 2, pass1_files := 1, pass1_violations := 1
          pass2_files := 1, pass2_violations := 1 } :=
  ⟨by decide, by decide, by decide, by decide⟩

/-- Claim C2.  In both hybrid-audit implementations, if the pass-1 scan
produces zero violations then no refinement model call, no pass-2
discovery and no pass-2 scan is performed, and the final result is the
pass-1-only result: zero total violations, an empty violation list, an
empty pass-2 file set and zero pass-2 violations (in
`guardian_agent_simple.py`, possibly the explicit "no findings" early
return when pass-1 discovery found no files at all). -/
theorem hybrid_short_circuit (env : HybridEnv)
    (gps : List (String × List String))
    (hp : env.patternResp = some gps) (hc : env.cloneOk = true)
    (hz : pass1ScanViolations env (pass1Discover env gps) = []) :
    ((lcHybridRun env).refineCalled = false
      ∧ (lcHybridRun env).pass2DiscoveryRan = false
      ∧ (lcHybridRun env).pass2ScanRan = false
      ∧ (lcHybridRun env).outcome = .hybrid []
          { total_violations := 0
            pass1_files := (pass1Discover env gps).length
            pass1_violations := 0, pass2_files := 0, pass2_violations := 0 })
    ∧ ((gsHybridRun env).refineCalled = false
      ∧ (gsHybridRun env).pass2DiscoveryRan = false
      ∧ (gsHybridRun env).pass2ScanRan = false
      ∧ ((gsHybridRun env).outcome = .noFilesFound
        ∨ (gsHybridRun env).outcome = .aggregated 0 []
            { pass1_files := (pass1Discover env gps).length
              pass1_violations := 0, pass2_new_files := 0
              pass2_violations := 0 })) := by
  constructor
  · rw [lcHybridRun_eq env gps hp hc, hz, lcRefineStage_nil]
    exact ⟨rfl, rfl, rfl, rfl⟩
  · by_cases hne : (pass1Discover env gps).isEmpty
    · have hgs : gsHybridRun env = gsNoFilesLog := by
        unfold gsHybridRun
        rw [hp]
        simp [hc, hne]
      rw [hgs]
      exact ⟨rfl, rfl, rfl, Or.inl rfl⟩
    · rw [gsHybridRun_eq env gps hp hc (by simp [hne]), hz, gsRefineStage_nil]
      exact ⟨rfl, rfl, rfl, Or.inr rfl⟩

/-- Claim C2, witness: on the demonstration run over a clean repository the
short-circuit fires in both implementations. -/
theorem hybrid_short_circuit_witness :
    demoCleanEnv.patternResp
        = some [("Hardcoded secrets", ["hardcoded secret"])]
    ∧ demoCleanEnv.cloneOk = true
    ∧ (lcHybridRun demoCleanEnv).refineCalled = false
    ∧ (gsHybridRun demoCleanEnv).pass2ScanRan = false :=
  ⟨rfl, rfl,
    (hybrid_short_circuit demoCleanEnv
      [("Hardcoded secrets", ["hardcoded secret"])] rfl rfl (by decide)).1.1,
    (hybrid_short_circuit demoCleanEnv
      [("Hardcoded secrets", ["hardcoded secret"])] rfl rfl
      (by decide)).2.2.2.1⟩

/-- Claim C3.  In both hybrid-audit implementations the pass-2 new-file set
is the strict set difference of the pass-2 discovery results minus the
pass-1 candidate set, and every file handed to the pass-2 deep scan is
absent from the pass-1 candidate set. -/
theorem pass2_file_exclusivity (env : HybridEnv) :
    (∀ f ∈ (lcHybridRun env).pass2Scanned,
        f ∉ (lcHybridRun env).pass1Candidates)
    ∧ (lcHybridRun env).pass2NewFiles
        = (lcHybridRun env).pass2Discovered.filter
            (fun f => decide (f ∉ (lcHybridRun env).pass1Candidates))
    ∧ (∀ f ∈ (gsHybridRun env).pass2Scanned,
        f ∉ (gsHybridRun env).pass1Candidates)
    ∧ (gsHybridRun env).pass2NewFiles
        = (gsHybridRun env).pass2Discovered.filter
            (fun f => decide (f ∉ (gsHybridRun env).pass1Candidates)) :=
  ⟨(lc_exclusive env).1, (lc_exclusive env).2,
   (gs_exclusive env).1, (gs_exclusive env).2⟩

/-- Claim C3, witness: in the demonstration run, `b.py` is scanned in
pass 2 and is not a pass-1 candidate. -/
theorem pass2_file_exclusivity_witness :
    "b.py" ∈ (gsHybridRun demoEnv).pass2Scanned
    ∧ "b.py" ∉ (gsHybridRun demoEnv).pass1Candidates :=
  ⟨by decide, (pass2_file_exclusivity demoEnv).2.2.1 "b.py" (by decide)⟩

/-- Claim C4.  For every file content and chunk size `C ≥ 1`, the `k`-th
chunk covers lines `[k*C+1, min((k+1)*C, L)]`; a line number is covered by
some chunk exactly when it lies in `[1, L]`; distinct chunks' line ranges
are disjoint (each ends strictly before the next starts); and a 65-line
file at chunk size 30 yields exactly the ranges `[1,30],[31,60],[61,65]`. -/
theorem chunk_line_coverage (fp : String) (lines : List String) (C : Nat)
    (hC : 0 < C) :
    (∀ k, ∀ hk : k < (splitIntoChunks C fp lines).length,
        ((splitIntoChunks C fp lines)[k]).start_line = k * C + 1
        ∧ ((splitIntoChunks C fp lines)[k]).end_line
            = min ((k + 1) * C) lines.length)
    ∧ (∀ n : Nat, (∃ ch ∈ splitIntoChunks C fp lines,
          ch.start_line ≤ n ∧ n ≤ ch.end_line) ↔ 1 ≤ n ∧ n ≤ lines.length)
    ∧ List.Pairwise (fun a b => a.end_line < b.start_line)
        (splitIntoChunks C fp lines)
    ∧ (splitIntoChunks 30 "sixtyfive" (List.replicate 65 "line")).map
        (fun ch => (ch.start_line, ch.end_line))
          = [(1, 30), (31, 60), (61, 65)] := by
  refine ⟨?_, ?_, ?_, by decide⟩
  · intro k hk
    constructor <;> simp [splitIntoChunks, Nat.succ_mul]
  · intro n
    constructor
    · rintro ⟨ch, hch, h1, h2⟩
      simp only [splitIntoChunks, List.mem_map, List.mem_range] at hch
      obtain ⟨k, hk, rfl⟩ := hch
      dsimp at h1 h2
      exact ⟨le_trans (Nat.succ_le_succ (Nat.zero_le _)) h1,
        le_trans h2 (min_le_right _ _)⟩
    · rintro ⟨hn1, hnL⟩
      obtain ⟨m, rfl⟩ : ∃ m, n = m + 1 := ⟨n - 1, by omega⟩
      have hL1 : 1 ≤ lines.length := le_trans hn1 hnL
      have hdm := Nat.div_add_mod m C
      have hmod := Nat.mod_lt m hC
      refine ⟨{ content := (lines.drop (m / C * C)).take C, file_path := fp
                start_line := m / C * C + 1
                end_line := min (m / C * C + C) lines.length
                total_lines := lines.length }, ?_, ?_, ?_⟩
      · simp only [splitIntoChunks, List.mem_map, List.mem_range]
        refine ⟨m / C, ?_, rfl⟩
        have h1 : lines.length + C - 1 = (lines.length - 1) + C := by omega
        rw [h1, Nat.add_div_right _ hC]
        exact Nat.lt_succ_of_le (Nat.div_le_div_right (by omega))
      · exact Nat.succ_le_succ (Nat.div_mul_le_self m C)
      · refine le_min ?_ hnL
        have h2 : C * (m / C) = m / C * C := Nat.mul_comm _ _
        rw [h2] at hdm
        linarith
  · rw [splitIntoChunks, List.pairwise_map]
    refine (List.pairwise_lt_range _).imp ?_
    intro a b hab
    dsimp
    calc min (a * C + C) lines.length ≤ a * C + C := min_le_left _ _
      _ = (a + 1) * C := (Nat.succ_mul a C).symm
      _ ≤ b * C := Nat.mul_le_mul_right C hab
      _ < b * C + 1 := Nat.lt_succ_self _

/-- Claim C4, witness: line 65 of a 65-line file is covered by a chunk at
chunk size 30. -/
theorem chunk_line_coverage_witness :
    0 < 30
    ∧ (∃ ch ∈ splitIntoChunks 30 "f" (List.replicate 65 "x"),
        ch.start_line ≤ 65 ∧ 65 ≤ ch.end_line) :=
  ⟨by decide,
    ((chunk_line_coverage "f" (List.replicate 65 "x") 30
      (by decide)).2.1 65).2 (by decide)⟩

/-- Claim C5.  A chunk whose model reply is unparseable contributes exactly
zero violations; the per-file analysis is still the chunk-by-chunk
concatenation with only that chunk's contribution emptied; a file not
containing the failing chunk is analyzed identically; and the repository
scan still visits the same candidate list (same `analyzed_files` and
`total_files`) regardless of per-chunk parse failures. -/
theorem chunk_parse_failure_isolated
    (o oBad : Chunk → LLMChunkResponse) (ch0 : Chunk) (C : Nat) (fp : String)
    (lines : List String) (fs : String → Option SrcFile) (paths : List String)
    (hfail : oBad ch0 = LLMChunkResponse.unparseable)
    (hagree : ∀ ch, ch ≠ ch0 → oBad ch = o ch) :
    analyzeChunk oBad ch0 = []
    ∧ analyzeFile oBad C fp lines
        = (splitIntoChunks C fp lines).flatMap
            (fun ch => if ch = ch0 then [] else analyzeChunk o ch)
    ∧ (ch0 ∉ splitIntoChunks C fp lines →
        analyzeFile oBad C fp lines = analyzeFile o C fp lines)
    ∧ (scanFiles fs oBad C paths).analyzed_files
        = (scanFiles fs o C paths).analyzed_files
    ∧ (scanFiles fs oBad C paths).total_files = paths.length := by
  have hchunk : analyzeChunk oBad ch0 = [] := by
    simp [analyzeChunk, hfail]
  have hother : ∀ ch, ch ≠ ch0 → analyzeChunk oBad ch = analyzeChunk o ch := by
    intro ch hch
    simp only [analyzeChunk, hagree ch hch]
  refine ⟨hchunk, ?_, ?_, rfl, rfl⟩
  · refine flatMap_congr_mem _ _ _ (fun ch _ => ?_)
    by_cases hch : ch = ch0
    · subst hch
      simp [hchunk]
    · simp [hch, hother ch hch]
  · intro hnot
    refine flatMap_congr_mem _ _ _ (fun ch hm => ?_)
    exact hother ch (fun hE => hnot (hE ▸ hm))

/-- The chunk of the one-line file `w.py` in the C5 witness. -/
def ch0demo : Chunk :=
  { content := ["x"], file_path := "w.py", start_line := 1, end_line := 1
    total_lines := 1 }

/-- A line-auditor oracle whose every reply parses to the empty list. -/
def oOkDemo : Chunk → LLMChunkResponse := fun _ => .parsed []

/-- A line-auditor oracle that fails to parse exactly on `ch0demo`. -/
def oBadDemo : Chunk → LLMChunkResponse := fun ch =>
  if ch = ch0demo then .unparseable else .parsed []

/-- Claim C5, witness: the failing chunk contributes zero violations and
the scan still reports the full candidate list. -/
theorem chunk_parse_failure_isolated_witness :
    analyzeChunk oBadDemo ch0demo = []
    ∧ (scanFiles (fun _ => none) oBadDemo 30 ["w.py"]).total_files = 1 :=
  have base := chunk_parse_failure_isolated oOkDemo oBadDemo ch0demo 30
    "w.py" ["x"] (fun _ => none) ["w.py"] (by decide)
    (fun ch hch => by simp [oBadDemo, oOkDemo, hch])
  ⟨base.1, base.2.2.2.2⟩

/-- Claim C6.  Every violation produced by `_analyze_chunk` carries the
chunk's file path in `file` and the chunk's starting line in `line`; every
chunk's starting line has the form `k * chunk_size + 1`; hence every
violation of a file analysis reports the originating file and a line of
that form (the chunk's first line, never necessarily the offending line). -/
theorem violation_line_tagging (o : Chunk → LLMChunkResponse) (C : Nat)
    (fp : String) (lines : List String) :
    (∀ ch : Chunk, ∀ v ∈ analyzeChunk o ch,
        v.file = ch.file_path ∧ v.line = ch.start_line)
    ∧ (∀ ch ∈ splitIntoChunks C fp lines,
        ch.file_path = fp ∧ ∃ k, ch.start_line = k * C + 1)
    ∧ (∀ v ∈ analyzeFile o C fp lines,
        v.file = fp ∧ ∃ k, v.line = k * C + 1) := by
  have hann : ∀ ch : Chunk, ∀ v ∈ analyzeChunk o ch,
      v.file = ch.file_path ∧ v.line = ch.start_line := by
    intro ch v hv
    unfold analyzeChunk at hv
    rcases ho : o ch with _ | _ | vs <;> rw [ho] at hv
    · simp at hv
    · simp at hv
    · simp only [List.mem_map] at hv
      obtain ⟨rv, _, rfl⟩ := hv
      exact ⟨rfl, rfl⟩
  have hform : ∀ ch ∈ splitIntoChunks C fp lines,
      ch.file_path = fp ∧ ∃ k, ch.start_line = k * C + 1 := by
    intro ch hch
    simp only [splitIntoChunks, List.mem_map, List.mem_range] at hch
    obtain ⟨k, _, rfl⟩ := hch
    exact ⟨rfl, k, rfl⟩
  refine ⟨hann, hform, ?_⟩
  intro v hv
  simp only [analyzeFile, List.mem_flatMap] at hv
  obtain ⟨ch, hch, hv⟩ := hv
  obtain ⟨h1, h2⟩ := hann ch v hv
  obtain ⟨h3, k, h4⟩ := hform ch hch
  exact ⟨h1.trans h3, k, h2.trans h4⟩

/-- Claim C6, witness: the demonstration violation for `a.py` carries the
file path and a chunk-start line number. -/
theorem violation_line_tagging_witness :
    vA.file = "a.py" ∧ ∃ k, vA.line = k * 30 + 1 :=
  (violation_line_tagging demoEnv.chunkResp 30 "a.py" ["secret = 1"]).2.2
    vA (by decide)

/-- Claim C7.  Ingesting the same chunk list a second time into the
persistent store is a no-op: every content-hash chunk id is already
present, the new-chunk list is empty, the store is unchanged and its chunk
count is unchanged — both when the first ingestion created the store and
when it added to an existing one. -/
theorem ingestion_idempotent (h : String → String)
    (store : List (String × String)) (chunks : List String) :
    ingestNewPairs h (ingestExisting h store chunks) chunks = []
    ∧ ingestExisting h (ingestExisting h store chunks) chunks
        = ingestExisting h store chunks
    ∧ (ingestExisting h (ingestExisting h store chunks) chunks).length
        = (ingestExisting h store chunks).length
    ∧ ingestNewPairs h (ingestFresh h chunks) chunks = []
    ∧ ingestExisting h (ingestFresh h chunks) chunks
        = ingestFresh h chunks := by
  have hmem : ∀ c ∈ chunks,
      h c ∈ (ingestExisting h store chunks).map Prod.fst := by
    intro c hc
    by_cases hm : h c ∈ store.map Prod.fst
    · simp only [ingestExisting, List.map_append, List.mem_append]
      exact Or.inl hm
    · simp only [ingestExisting, List.map_append, List.mem_append]
      refine Or.inr ?_
      have hpair : (h c, c) ∈ ingestNewPairs h store chunks := by
        simp only [ingestNewPairs, List.mem_filter, List.mem_map]
        exact ⟨⟨c, hc, rfl⟩, by simpa using hm⟩
      exact List.mem_map.2 ⟨(h c, c), hpair, rfl⟩
  have hnil : ∀ store2 : List (String × String),
      (∀ c ∈ chunks, h c ∈ store2.map Prod.fst) →
      ingestNewPairs h store2 chunks = [] := by
    intro store2 H
    rw [ingestNewPairs, List.filter_eq_nil_iff]
    intro p hp
    simp only [List.mem_map] at hp
    obtain ⟨c, hc, rfl⟩ := hp
    simp [H c hc]
  have k1 : ingestNewPairs h (ingestExisting h store chunks) chunks = [] :=
    hnil _ hmem
  have k2 : ingestExisting h (ingestExisting h store chunks) chunks
      = ingestExisting h store chunks := by
    rw [ingestExisting, k1, List.append_nil]
  have k4 : ingestNewPairs h (ingestFresh h chunks) chunks = [] := by
    refine hnil _ (fun c hc => ?_)
    simp only [ingestFresh, List.map_map, List.mem_map]
    exact ⟨c, hc, rfl⟩
  have k5 : ingestExisting h (ingestFresh h chunks) chunks
      = ingestFresh h chunks := by
    rw [ingestExisting, k4, List.append_nil]
  exact ⟨k1, k2, by rw [k2], k4, k5⟩

/-- Claim C8.  When the pattern-generation reply cannot be parsed, both
hybrid-audit implementations fall back to an exhaustive line-by-line audit
over the entire repository (no pattern-guided discovery, no refinement)
and still terminate with an audit result. -/
theorem pattern_failure_fallback (env : HybridEnv)
    (h : env.patternResp = none) :
    (lcHybridRun env).outcome = .fullAudit (runScan env env.allRepoFiles)
    ∧ (gsHybridRun env).outcome
        = .fallbackAudit (runScan env env.allRepoFiles)
    ∧ (lcHybridRun env).refineCalled = false
    ∧ (lcHybridRun env).pass2DiscoveryRan = false
    ∧ (lcHybridRun env).pass2ScanRan = false
    ∧ (lcHybridRun env).pass1Candidates = []
    ∧ (gsHybridRun env).refineCalled = false
    ∧ (gsHybridRun env).pass2DiscoveryRan = false
    ∧ (gsHybridRun env).pass2ScanRan = false
    ∧ (gsHybridRun env).pass1Candidates = [] := by
  have hl : lcHybridRun env =
      { outcome := .fullAudit (runScan env env.allRepoFiles)
        pass1Candidates := [], pass1Violations := []
        refineCalled := false, pass2DiscoveryRan := false
        pass2Discovered := [], pass2NewFiles := [], pass2ScanRan := false
        pass2Scanned := [], pass2Violations := [] } := by
    unfold lcHybridRun
    rw [h]
  have hg : gsHybridRun env = gsFallbackLog env := by
    unfold gsHybridRun
    rw [h]
  rw [hl, hg]
  exact ⟨rfl, rfl, rfl, rfl, rfl, rfl, rfl, rfl, rfl, rfl⟩

/-- Claim C8, witness: the demonstration run with an unparseable
pattern-generation reply ends in the exhaustive-audit outcome. -/
theorem pattern_failure_fallback_witness :
    demoNoPatternEnv.patternResp = none
    ∧ (lcHybridRun demoNoPatternEnv).outcome
        = .fullAudit (runScan demoNoPatternEnv demoNoPatternEnv.allRepoFiles)
    ∧ (gsHybridRun demoNoPatternEnv).outcome
        = .fallbackAudit
            (runScan demoNoPatternEnv demoNoPatternEnv.allRepoFiles) :=
  ⟨rfl, (pattern_failure_fallback demoNoPatternEnv rfl).1,
    (pattern_failure_fallback demoNoPatternEnv rfl).2.1⟩

/-- Claim C9.  With `GOOGLE_API_KEY` absent from the environment, both the
`CodeAuditorAgent` and the `ComplianceChecker` constructors raise a
`ValueError` with the documented message and perform no external client
construction — in particular no repository clone, indexing or model
invocation happens before the failure. -/
theorem missing_api_key_fails_fast (env : String → Option String)
    (h : env "GOOGLE_API_KEY" = none) :
    (codeAuditorAgentInit env).raised = some
      "GOOGLE_API_KEY not found. Please set it as an environment variable."
    ∧ (codeAuditorAgentInit env).steps = []
    ∧ (complianceCheckerInit env).raised = some
      "GOOGLE_API_KEY not found. Please set it as an environment variable."
    ∧ (complianceCheckerInit env).steps = [] := by
  simp [codeAuditorAgentInit, complianceCheckerInit, envTruthy, h]

/-- Claim C9, witness: the empty environment. -/
theorem missing_api_key_fails_fast_witness :
    (codeAuditorAgentInit (fun _ => none)).steps = []
    ∧ (complianceCheckerInit (fun _ => none)).raised = some
      "GOOGLE_API_KEY not found. Please set it as an environment variable." :=
  ⟨(missing_api_key_fails_fast (fun _ => none) rfl).2.1,
   (missing_api_key_fails_fast (fun _ => none) rfl).2.2.1⟩

/-- Claim C10.  `scan_files` reports the full input length as
`total_files`; counts in `analyzed_files` and collects violations from
exactly the candidates that are existing regular files passing
`_should_analyze_file`; and `_should_analyze_file` accepts exactly the
files outside every ignored directory whose lowercased extension is in the
fixed whitelist (the blacklist check is subsumed, the two lists being
disjoint) — in particular `.md`, `.json` and `.yaml` candidates are
silently skipped. -/
theorem scan_files_whitelist (fs : String → Option SrcFile)
    (o : Chunk → LLMChunkResponse) (C : Nat) (paths : List String)
    (p : String) (parts : List String) (suffix : String) :
    (scanFiles fs o C paths).total_files = paths.length
    ∧ (scanFiles fs o C paths).analyzed_files
        = (paths.filter (isAnalyzedFile fs)).length
    ∧ (scanFiles fs o C paths).violations
        = (paths.filter (isAnalyzedFile fs)).flatMap (fun q =>
            match fs q with
            | none => []
            | some f => analyzeFile o C q f.lines)
    ∧ (shouldAnalyzeFile parts suffix = true
        ↔ ((∀ d ∈ IGNORE_DIRS, d ∉ parts)
            ∧ lowerStr suffix ∈ RELEVANT_EXTENSIONS))
    ∧ (isAnalyzedFile fs p = true
        ↔ ∃ f, fs p = some f ∧ shouldAnalyzeFile f.parts f.suffix = true)
    ∧ shouldAnalyzeFile ["notes.md"] ".md" = false
    ∧ shouldAnalyzeFile ["cfg.json"] ".json" = false
    ∧ shouldAnalyzeFile ["ci.yaml"] ".yaml" = false := by
  refine ⟨rfl, rfl, rfl, ?_, ?_, by decide, by decide, by decide⟩
  · unfold shouldAnalyzeFile
    by_cases hd : ∃ d ∈ IGNORE_DIRS, d ∈ parts
    · simp only [hd, if_true]
      constructor
      · intro hF
        exact absurd hF (by simp)
      · rintro ⟨hall, _⟩
        obtain ⟨d, hdI, hdp⟩ := hd
        exact absurd hdp (hall d hdI)
    · simp only [hd, if_false]
      have hall : ∀ d ∈ IGNORE_DIRS, d ∉ parts := by
        intro d hdI hdp
        exact hd ⟨d, hdI, hdp⟩
      by_cases hi : lowerStr suffix ∈ IGNORE_EXTENSIONS
      · simp only [hi, if_true]
        constructor
        · intro hF
          exact absurd hF (by simp)
        · rintro ⟨_, hr⟩
          exact absurd hr (ignored_not_relevant _ hi)
      · simp only [hi, if_false]
        by_cases hr : lowerStr suffix ∈ RELEVANT_EXTENSIONS
        · simpa [hr] using hall
        · simp [hr]
  · unfold isAnalyzedFile
    rcases hfp : fs p with _ | f
    · simp
    · simp

/-- Claim C10, witness: a `.md` candidate is skipped while an existing
`.py` file is analyzed, and `total_files` reports the full input length. -/
theorem scan_files_whitelist_witness :
    (scanFiles demoEnv.fs demoEnv.chunkResp 30 ["a.py", "notes.md"]
      ).total_files = 2
    ∧ shouldAnalyzeFile ["notes.md"] ".md" = false :=
  ⟨(scan_files_whitelist demoEnv.fs demoEnv.chunkResp 30 ["a.py", "notes.md"]
      "a.py" ["notes.md"] ".md").1,
   (scan_files_whitelist demoEnv.fs demoEnv.chunkResp 30 ["a.py", "notes.md"]
      "a.py" ["notes.md"] ".md").2.2.2.2.2.1⟩

end GuardianAI
